import Mathlib

/-!
Shallow embedding of `src/app/shelters/page.tsx` (FindTail shelters page).

The page fetches shelter profiles from a backend, enriches each with an
optional detail record and a derived animal count, stores the result in
component state, and filters it with a search query plus a four-field form.
We model the backend responses as explicit inputs: the profile query as an
`Except` value and the per-profile detail/count fetch as a function from the
profile to a `DetailFetch` outcome (`thrown` is a rejected promise caught by
the per-profile try/catch; `ok` carries the two possibly-null data payloads).
JS-specific semantics are modelled explicitly: `||` falsiness on strings
(`jsOr`), `?? null` as `Option`, `Number()` on decimal strings (`jsNumber`,
with `none` for NaN), and the relational `>=` that coerces `null` to `0`
(`jsGe`). Ratings are modelled as integers, which is what the page's rating
select produces; case folding is modelled on ASCII.
-/

/-- JS string fallback `a || d`: the empty string and null/undefined are
falsy, any other string is returned unchanged. -/
def jsOr (a : Option String) (d : String) : String :=
  match a with
  | some s => if s = "" then d else s
  | none => d

/-- Character-list test that `needle` occurs at the start of `hay`, the
building block of JS `String.prototype.includes`. -/
def prefAt : List Char → List Char → Bool
  | [], _ => true
  | _ :: _, [] => false
  | a :: as, b :: bs => a == b && prefAt as bs

/-- Character-list substring test: `needle` occurs somewhere in `hay`. -/
def containsSub (hay needle : List Char) : Bool :=
  match hay with
  | [] => needle.isEmpty
  | c :: t => prefAt needle (c :: t) || containsSub t needle

/-- JS `hay.includes(needle)` on strings. -/
def jsIncludes (hay needle : String) : Bool :=
  containsSub hay.toList needle.toList

/-- JS `toLowerCase()`, modelled on ASCII by mapping `Char.toLower` over
the characters. -/
def jsLower (s : String) : String :=
  String.mk (s.toList.map Char.toLower)

/-- Modelled JS `Number()` restricted to the strings the page's selects
produce: an optionally `-`-signed decimal integer string parses to its value,
the empty string to `0`, and anything else to `none` (NaN). -/
def jsNumber (s : String) : Option Int :=
  let digitsVal : List Char → Option Int := fun cs =>
    if cs ≠ [] ∧ cs.all Char.isDigit then
      some (cs.foldl (fun a c => a * 10 + Int.ofNat (c.toNat - 48)) 0)
    else none
  match s.toList with
  | [] => some 0
  | '-' :: rest => (digitsVal rest).map Neg.neg
  | cs => digitsVal cs

/-- JS relational `a >= b` where `a` is a number-or-null (null coerces to
`0`) and `b` may be NaN (`none`), in which case the comparison is false. -/
def jsGe (a : Option Int) (b : Option Int) : Bool :=
  match b with
  | none => false
  | some n => decide (n ≤ a.getD 0)

/-- One row of the `profiles` table as this page reads it: the fields the
component consumes, with `address` possibly null. `created_at` is the
ordering key of the profile query. -/
structure ShelterProfile where
  id : String
  full_name : String
  address : Option String
  user_type : String
  created_at : Int

deriving instance DecidableEq, Repr for ShelterProfile

/-- One row of the `shelter_details` table as the filter reads it; every
field may be absent, and `rating` may be null. -/
structure ShelterDetails where
  shelter_name : Option String
  shelter_type : Option String
  location : Option String
  description : Option String
  website : Option String
  rating : Option Int

deriving instance DecidableEq, Repr for ShelterDetails

/-- Detail object with every field absent, the `\x7b\x7d` fallback the filter
substitutes for a missing `shelter_details`. -/
def emptyDetails : ShelterDetails :=
  { shelter_name := none, shelter_type := none, location := none,
    description := none, website := none, rating := none }

/-- Outcome of one profile's detail-and-count fetch: `ok` carries the
possibly-null detail row and the possibly-null list of non-adopted animal
ids (the page only uses its length); `thrown` is a rejected promise, caught
by the per-profile try/catch. -/
inductive DetailFetch where
  | ok (shelterDetails : Option ShelterDetails) (animalCount : Option (List String)) : DetailFetch
  | thrown : DetailFetch

deriving instance DecidableEq, Repr for DetailFetch

/-- View model built for each profile: the spread profile fields, the
detail object (optional here because the filter re-checks it), and the
derived animal count. -/
structure EnrichedShelter where
  profile : ShelterProfile
  shelter_details : Option ShelterDetails
  animals_count : Int

deriving instance DecidableEq, Repr for EnrichedShelter

/-- Default detail object substituted when a profile's detail row is null or
its fetch throws: name from the profile, type `animal_shelter`, location
from the profile's address (or `Unknown`), empty description and website. -/
def defaultDetails (profile : ShelterProfile) : ShelterDetails :=
  { shelter_name := some profile.full_name,
    shelter_type := some "animal_shelter",
    location := some (jsOr profile.address "Unknown"),
    description := some "",
    website := some "",
    rating := none }

/-- Enrichment of one profile, translated from the body of the
`profilesData.map` callback: on success, substitute `defaultDetails` for a
null detail row and `0` for a null count list; on a thrown error, use the
default detail object and count `0`. -/
def enrichShelter (fetch : ShelterProfile → DetailFetch) (profile : ShelterProfile) : EnrichedShelter :=
  match fetch profile with
  | DetailFetch.ok shelterDetails animalCount =>
    { profile := profile,
      shelter_details := some (shelterDetails.getD (defaultDetails profile)),
      animals_count := (animalCount.map (fun l => (l.length : Int))).getD 0 }
  | DetailFetch.thrown =>
    { profile := profile,
      shelter_details := some (defaultDetails profile),
      animals_count := 0 }

/-- Component state touched by `fetchShelters`: the shelter list, the
loading flag, the error message, and the initialization flag that guards
against a duplicate fetch. -/
structure FetchState where
  shelters : List EnrichedShelter
  loading : Bool
  error : Option String
  didInit : Bool

deriving instance DecidableEq, Repr for FetchState

/-- State at mount: no shelters, loading, no error, not yet initialized. -/
def initialState : FetchState :=
  { shelters := [], loading := true, error := none, didInit := false }

/-- State transformer translated from `fetchShelters`: a failed profile
query throws, is caught, and sets the error message; a null or empty profile
list yields an empty shelter list; otherwise every profile is enriched, in
the order the query returned them. `setLoading(true)` then the `finally`
block leave `loading` false in every path, and every path sets the
initialization flag. The fire-and-forget `fixMissingShelterDetails` call
only logs and touches no state, so it does not appear in the model. -/
def fetchShelters (s : FetchState) (profilesResult : Except String (List ShelterProfile))
    (fetch : ShelterProfile → DetailFetch) : FetchState :=
  match profilesResult with
  | Except.error _ =>
    { s with
      loading := false,
      error := some "Failed to load shelters. Please try again.",
      didInit := true }
  | Except.ok profilesData =>
    if profilesData.isEmpty then
      { s with loading := false, error := none, shelters := [], didInit := true }
    else
      { s with
        loading := false,
        error := none,
        shelters := profilesData.map (enrichShelter fetch),
        didInit := true }

/-- Filter form state: four optional text criteria, each empty when
inactive. `free_places` is collected by the form but never read by the
filter. -/
structure FormData where
  shelter_type : String
  rating : String
  free_places : String
  location : String

deriving instance DecidableEq, Repr for FormData

/-- Filter predicate translated line by line from the `shelters.filter`
callback: fall back to an empty detail object, default missing string
fields to the empty string and a missing rating to null, then require the
case-insensitive name-or-location match against the search query, the exact
type match, the JS `rating >= Number(formData.rating)` comparison, and the
location-criterion substring match, each criterion vacuous when its form
field is empty. -/
def filterPred (searchQuery : String) (formData : FormData) (shelter : EnrichedShelter) : Bool :=
  let details := shelter.shelter_details.getD emptyDetails
  let shelterName := jsOr details.shelter_name ""
  let shelterLocation := jsOr details.location ""
  let shelterType := jsOr details.shelter_type ""
  let shelterRating := details.rating
  let nameMatch := jsIncludes (jsLower shelterName) (jsLower searchQuery)
  let locationMatch := jsIncludes (jsLower shelterLocation) (jsLower searchQuery)
  let typeMatch := formData.shelter_type == "" || shelterType == formData.shelter_type
  let ratingMatch := formData.rating == "" || jsGe shelterRating (jsNumber formData.rating)
  let locationFilterMatch := formData.location == "" ||
    jsIncludes (jsLower shelterLocation) (jsLower formData.location)
  (nameMatch || locationMatch) && typeMatch && ratingMatch && locationFilterMatch

/-- Derived list `filteredShelters`, recomputed on every render from the
current shelter list, search query, and form criteria. -/
def filteredShelters (shelters : List EnrichedShelter) (searchQuery : String)
    (formData : FormData) : List EnrichedShelter :=
  shelters.filter (filterPred searchQuery formData)

/-- Free-text criterion as the spec words it: the case-insensitive
substring match succeeds on the shelter name or on its location. -/
def textCriterion (searchQuery : String) (shelter : EnrichedShelter) : Bool :=
  let details := shelter.shelter_details.getD emptyDetails
  jsIncludes (jsLower (jsOr details.shelter_name "")) (jsLower searchQuery) ||
    jsIncludes (jsLower (jsOr details.location "")) (jsLower searchQuery)

/-- Type criterion as the spec words it: inactive when empty, otherwise
exact equality with the shelter type. -/
def typeCriterion (formData : FormData) (shelter : EnrichedShelter) : Bool :=
  let details := shelter.shelter_details.getD emptyDetails
  formData.shelter_type == "" || jsOr details.shelter_type "" == formData.shelter_type

/-- Rating criterion as the spec words it: inactive when empty, otherwise
the JS comparison of the (possibly null) rating against the parsed
threshold. -/
def ratingCriterion (formData : FormData) (shelter : EnrichedShelter) : Bool :=
  let details := shelter.shelter_details.getD emptyDetails
  formData.rating == "" || jsGe details.rating (jsNumber formData.rating)

/-- Location criterion as the spec words it: inactive when empty, otherwise
a case-insensitive substring match on the shelter location. -/
def locationCriterion (formData : FormData) (shelter : EnrichedShelter) : Bool :=
  let details := shelter.shelter_details.getD emptyDetails
  formData.location == "" ||
    jsIncludes (jsLower (jsOr details.location "")) (jsLower formData.location)

/-- Sample profile used to instantiate theorems with hypotheses. -/
def sampleProfile : ShelterProfile :=
  { id := "p1", full_name := "Oasis", address := some "Kyiv",
    user_type := "shelter", created_at := 0 }

/-- Sample shelter whose detail record carries no rating. -/
def unratedShelter : EnrichedShelter :=
  { profile := { id := "p3", full_name := "NoStars", address := none,
                 user_type := "shelter", created_at := 0 },
    shelter_details := some { shelter_name := some "NoStars",
                              shelter_type := some "animal_shelter",
                              location := some "Kyiv",
                              description := none,
                              website := none,
                              rating := none },
    animals_count := 0 }

/-- Enrichment never changes the profile it spreads into the record. -/
theorem enrichShelter_profile (fetch : ShelterProfile → DetailFetch) (p : ShelterProfile) :
    (enrichShelter fetch p).profile = p := by
  unfold enrichShelter
  cases fetch p <;> rfl

/-- Projecting the profile back out of an enriched batch recovers the
profile list. -/
theorem map_profile_map_enrich (fetch : ShelterProfile → DetailFetch)
    (l : List ShelterProfile) :
    l.map (EnrichedShelter.profile ∘ enrichShelter fetch) = l := by
  induction l with
  | nil => rfl
  | cons p t ih => simp [enrichShelter_profile, ih]

/-- Empty needle is a substring of anything, as in JS `includes`. -/
theorem containsSub_nil (hay : List Char) : containsSub hay [] = true := by
  cases hay <;> simp [containsSub, prefAt]

/-- JS `includes` with the empty search string is always true. -/
theorem jsIncludes_empty_needle (hay : String) : jsIncludes hay "" = true := by
  unfold jsIncludes
  rw [show ("" : String).toList = [] from rfl]
  exact containsSub_nil _

/-- Lowercasing the empty string is the empty string. -/
theorem jsLower_empty : jsLower "" = "" := rfl

/-- C1: when no per-profile detail or count fetch fails, `fetchShelters`
yields exactly one EnrichedShelter per profile, in the order of the profile
query, so the query's newest-created-first order is inherited. -/
theorem fetchShelters_one_record_per_profile (ps : List ShelterProfile)
    (fetch : ShelterProfile → DetailFetch)
    (hok : ∀ p ∈ ps, fetch p ≠ DetailFetch.thrown) :
    (fetchShelters initialState (Except.ok ps) fetch).shelters.length = ps.length ∧
    (fetchShelters initialState (Except.ok ps) fetch).shelters.map EnrichedShelter.profile
      = ps := by
  unfold fetchShelters
  cases ps with
  | nil => simp [initialState]
  | cons p t => simp [enrichShelter_profile, map_profile_map_enrich]

/-- Witness for C1 at a one-profile list with a successful fetch. -/
theorem fetchShelters_one_record_per_profile_witness :
    (fetchShelters initialState (Except.ok [sampleProfile])
        (fun _ => DetailFetch.ok none none)).shelters.length = [sampleProfile].length ∧
    (fetchShelters initialState (Except.ok [sampleProfile])
        (fun _ => DetailFetch.ok none none)).shelters.map EnrichedShelter.profile
      = [sampleProfile] :=
  fetchShelters_one_record_per_profile [sampleProfile]
    (fun _ => DetailFetch.ok none none) (by decide)

/-- C2: a profile whose detail-and-count fetch throws still yields its
EnrichedShelter, built from the default detail object (name from the
profile, type `animal_shelter`, location from the address or `Unknown`,
empty description and website) with a zero count, and the batch still has
one record per profile. -/
theorem per_profile_failure_is_defaulted (ps : List ShelterProfile)
    (fetch : ShelterProfile → DetailFetch) (p : ShelterProfile)
    (hp : p ∈ ps) (hf : fetch p = DetailFetch.thrown) :
    ({ profile := p, shelter_details := some (defaultDetails p),
       animals_count := 0 } : EnrichedShelter)
        ∈ (fetchShelters initialState (Except.ok ps) fetch).shelters ∧
    (fetchShelters initialState (Except.ok ps) fetch).shelters.length = ps.length := by
  unfold fetchShelters
  cases ps with
  | nil => cases hp
  | cons q t =>
    refine ⟨?_, by simp⟩
    simp only [List.isEmpty_cons, Bool.false_eq_true, if_false]
    refine List.mem_map.mpr ⟨p, hp, ?_⟩
    simp [enrichShelter, hf]

/-- Witness for C2 at a one-profile list whose fetch throws. -/
theorem per_profile_failure_is_defaulted_witness :
    ({ profile := sampleProfile, shelter_details := some (defaultDetails sampleProfile),
       animals_count := 0 } : EnrichedShelter)
        ∈ (fetchShelters initialState (Except.ok [sampleProfile])
            (fun _ => DetailFetch.thrown)).shelters ∧
    (fetchShelters initialState (Except.ok [sampleProfile])
        (fun _ => DetailFetch.thrown)).shelters.length = [sampleProfile].length :=
  per_profile_failure_is_defaulted [sampleProfile] (fun _ => DetailFetch.thrown)
    sampleProfile (by decide) rfl

/-- C3: counterexample — with the non-empty minimum-rating criterion `"0"`,
a shelter whose detail record has no rating and whose name and location
match the (empty) text query still passes the filter, because the JS
comparison coerces null to 0 and `0 >= 0` holds, so the claim as stated is
false. -/
theorem zero_rating_criterion_admits_unrated :
    (("0" : String) ≠ "") ∧
    (unratedShelter.shelter_details.getD emptyDetails).rating = none ∧
    filterPred "" { shelter_type := "", rating := "0", free_places := "", location := "" }
        unratedShelter = true := by
  refine ⟨by decide, rfl, by decide⟩

/-- C3 amended: the filter excludes a shelter with no rating whenever the
minimum-rating criterion is non-empty and does not denote a number that is
zero or negative (every selectable minimum of 1 or more qualifies), even if
its name or location matches the text query. -/
theorem active_rating_filter_excludes_unrated (searchQuery : String)
    (formData : FormData) (shelter : EnrichedShelter)
    (hrating : (shelter.shelter_details.getD emptyDetails).rating = none)
    (hactive : formData.rating ≠ "")
    (hpos : ∀ n : Int, jsNumber formData.rating = some n → 0 < n) :
    filterPred searchQuery formData shelter = false := by
  have hbeq : (formData.rating == "") = false := by
    simp [hactive]
  have hge : jsGe none (jsNumber formData.rating) = false := by
    cases hn : jsNumber formData.rating with
    | none => rfl
    | some n =>
      have h0 := hpos n hn
      simp [jsGe]
      omega
  simp [filterPred, hrating, hbeq, hge]

/-- Witness for the amended C3 at the criterion `"3"` and an unrated
shelter. -/
theorem active_rating_filter_excludes_unrated_witness :
    filterPred "" { shelter_type := "", rating := "3", free_places := "", location := "" }
        unratedShelter = false :=
  active_rating_filter_excludes_unrated ""
    { shelter_type := "", rating := "3", free_places := "", location := "" }
    unratedShelter rfl (by decide)
    (fun n hn => by
      rw [show jsNumber "3" = some (3 : Int) from by decide] at hn
      injection hn with h
      omega)

/-- C4: a failed profile query sets the user-facing error message, and the
state reached from the initial state holds an empty shelter list, so the
displayed (filtered) list is empty under every query and criteria. -/
theorem profile_query_failure_error_and_empty (msg : String)
    (fetch : ShelterProfile → DetailFetch) (searchQuery : String)
    (formData : FormData) :
    (fetchShelters initialState (Except.error msg) fetch).error
        = some "Failed to load shelters. Please try again." ∧
    (fetchShelters initialState (Except.error msg) fetch).shelters = [] ∧
    filteredShelters (fetchShelters initialState (Except.error msg) fetch).shelters
        searchQuery formData = [] :=
  ⟨rfl, rfl, rfl⟩

/-- C5: every EnrichedShelter that `fetchShelters` produces carries a
present (non-null) detail object and a non-negative animal count. -/
theorem enriched_shelter_invariant (profilesResult : Except String (List ShelterProfile))
    (fetch : ShelterProfile → DetailFetch) (e : EnrichedShelter)
    (he : e ∈ (fetchShelters initialState profilesResult fetch).shelters) :
    e.shelter_details.isSome = true ∧ 0 ≤ e.animals_count := by
  cases profilesResult with
  | error msg => simp [fetchShelters, initialState] at he
  | ok ps =>
    cases hps : ps.isEmpty with
    | true => simp [fetchShelters, hps] at he
    | false =>
      simp only [fetchShelters, hps, Bool.false_eq_true, if_false] at he
      obtain ⟨p, hp, rfl⟩ := List.mem_map.mp he
      unfold enrichShelter
      cases hf : fetch p with
      | ok d c =>
        refine ⟨rfl, ?_⟩
        cases c with
        | none => simp
        | some l => simp
      | thrown => exact ⟨rfl, le_refl 0⟩

/-- Witness for C5 at a one-profile list with a null detail row. -/
theorem enriched_shelter_invariant_witness :
    (enrichShelter (fun _ => DetailFetch.ok none none) sampleProfile).shelter_details.isSome
        = true ∧
    0 ≤ (enrichShelter (fun _ => DetailFetch.ok none none) sampleProfile).animals_count :=
  enriched_shelter_invariant (Except.ok [sampleProfile])
    (fun _ => DetailFetch.ok none none)
    (enrichShelter (fun _ => DetailFetch.ok none none) sampleProfile) (by decide)

/-- C6: the filter predicate is the logical AND of the four criteria, with
the free-text criterion satisfied when the case-insensitive substring match
succeeds on the shelter name or on its location. -/
theorem filterPred_is_and_of_criteria (searchQuery : String) (formData : FormData)
    (shelter : EnrichedShelter) :
    filterPred searchQuery formData shelter =
      (textCriterion searchQuery shelter && typeCriterion formData shelter &&
        ratingCriterion formData shelter && locationCriterion formData shelter) := rfl

/-- C7: filtering is idempotent — applying the same query and criteria to
the filter's own output yields the output unchanged. -/
theorem filteredShelters_idempotent (shelters : List EnrichedShelter)
    (searchQuery : String) (formData : FormData) :
    filteredShelters (filteredShelters shelters searchQuery formData) searchQuery formData
      = filteredShelters shelters searchQuery formData := by
  unfold filteredShelters
  induction shelters with
  | nil => rfl
  | cons a t ih =>
    cases h : filterPred searchQuery formData a <;>
      simp [List.filter_cons, h, ih]

/-- C8: the `free_places` form field is never read by the filter, so any
two criteria that differ only in `free_places` produce the same filtered
list. -/
theorem free_places_has_no_effect (shelters : List EnrichedShelter)
    (searchQuery : String) (formData : FormData) (v₁ v₂ : String) :
    filteredShelters shelters searchQuery
        { formData with free_places := v₁ } =
      filteredShelters shelters searchQuery
        { formData with free_places := v₂ } := rfl

/-- C9: a profile query returning zero profiles yields the empty shelter
list with the error state still null and the loading flag retracted. -/
theorem zero_profiles_empty_without_error (fetch : ShelterProfile → DetailFetch) :
    fetchShelters initialState (Except.ok []) fetch =
      { shelters := [], loading := false, error := none, didInit := true } := rfl

/-- C10: with an empty search query and all four form criteria empty the
filter keeps every shelter, including shelters whose detail object or any
of its fields is missing (the model is total on such records). -/
theorem empty_criteria_filter_identity (shelters : List EnrichedShelter) :
    filteredShelters shelters ""
        { shelter_type := "", rating := "", free_places := "", location := "" }
      = shelters := by
  have hp : ∀ a : EnrichedShelter,
      filterPred "" { shelter_type := "", rating := "", free_places := "", location := "" } a
        = true := by
    intro a
    simp [filterPred, jsLower_empty, jsIncludes_empty_needle]
  unfold filteredShelters
  induction shelters with
  | nil => rfl
  | cons a t ih => simp [List.filter_cons, hp a, ih]
